import Mathlib

/-!
Verification development for the profile-scoring pipeline.

Shallow embedding of the repository source:
  * airflow/packages/scoring/src/scoring/heuristic/scorer.py (heuristic HAS scorer)
  * airflow/packages/scoring/src/scoring/llm/labeler.py and prompt.py (LLM batch labeler)
  * airflow/tasks/keywords.py (pagination tracker and keyword selector)
  * airflow/tasks/storage.py (ingestion, scoring-queue admission)
  * airflow/tasks/stats.py (keyword statistics aggregator)

Python Decimal / float arithmetic is modelled with rational numbers: every
arithmetic operation the scorer and the cost calculator perform is exact in
the Decimal context the code uses, so the rational model agrees with the code
on all values of interest.  Database tables are modelled as lists of rows and
SQL queries as list operations translated from the query expressions.
-/

namespace TwitterScorer

/-! ## Data model (airflow/packages/db/src/db/models.py) -/

/-- Row of the user_stats table: all numeric and boolean signal columns are
nullable (int or None, bool or None in the source model). -/
structure UserStats where
  followers : Option Int
  following : Option Int
  statuses : Option Int
  favorites : Option Int
  listed : Option Int
  media : Option Int
  verified : Option Bool
  blue_verified : Option Bool
  default_profile : Option Bool
  default_image : Option Bool
  sensitive : Option Bool
  can_dm : Option Bool
deriving Repr, DecidableEq

/-- Python truthiness of a nullable boolean column: None and False are falsy. -/
def truthy (b : Option Bool) : Bool := b.getD false

/-! ## Heuristic scorer (scoring/heuristic/scorer.py) -/

/-- Python str.strip on the character list: drop whitespace from both ends. -/
def strip_chars (l : List Char) : List Char :=
  ((l.dropWhile Char.isWhitespace).reverse.dropWhile Char.isWhitespace).reverse

/-- Length of the stripped bio text, as in len(bio.strip()). -/
def stripped_length (s : String) : Nat := (strip_chars s.data).length

/-- scorer.py _compute_bio_score: a falsy bio (None or the empty string)
scores 0.00, otherwise the score is a tier of the stripped length. -/
def compute_bio_score (bio : Option String) : ℚ :=
  match bio with
  | none => 0
  | some b =>
    if b = "" then 0
    else
      let length := stripped_length b
      if length < 10 then 5/100
      else if length < 50 then 10/100
      else if length < 100 then 15/100
      else if length < 160 then 20/100
      else 25/100

/-- scorer.py _compute_engagement_score: missing counts default to 0, a zero
following count is replaced by 1 before the ratio is taken. -/
def compute_engagement_score (stats : UserStats) : ℚ :=
  let followers : Int := stats.followers.getD 0
  let following0 : Int := stats.following.getD 0
  let statuses : Int := stats.statuses.getD 0
  let following : Int := if following0 = 0 then 1 else following0
  let ratio : ℚ := (followers : ℚ) / (following : ℚ)
  let score : ℚ := 0
  let score : ℚ :=
    if ratio > 10 then score + 20/100
    else if ratio > 2 then score + 15/100
    else if ratio > 1/2 then score + 10/100
    else if ratio > 1/10 then score + 5/100
    else score
  let score : ℚ :=
    if statuses > 1000 then score + 15/100
    else if statuses > 100 then score + 10/100
    else if statuses > 10 then score + 5/100
    else score
  min (35/100) score

/-- scorer.py _compute_account_age_score. -/
def compute_account_age_score (stats : UserStats) : ℚ :=
  let listed : Int := stats.listed.getD 0
  let favorites : Int := stats.favorites.getD 0
  let score : ℚ := 0
  let score : ℚ :=
    if listed > 100 then score + 15/100
    else if listed > 10 then score + 10/100
    else if listed > 0 then score + 5/100
    else score
  let score : ℚ :=
    if favorites > 1000 then score + 10/100
    else if favorites > 100 then score + 5/100
    else score
  min (25/100) score

/-- scorer.py _compute_verification_score. -/
def compute_verification_score (stats : UserStats) : ℚ :=
  let score : ℚ := 0
  let score : ℚ := if truthy stats.verified then score + 10/100 else score
  let score : ℚ := if truthy stats.blue_verified then score + 3/100 else score
  let score : ℚ := if !truthy stats.default_profile then score + 1/100 else score
  let score : ℚ := if !truthy stats.default_image then score + 1/100 else score
  min (15/100) score

/-- scorer.py _classify: the if-chain deciding the account type, evaluated
top to bottom exactly as written in the source. -/
def classify (score : ℚ) (stats : UserStats) : String :=
  let followers : Int := stats.followers.getD 0
  let following : Int := stats.following.getD 0
  if score < 30/100 then "Bot"
  else if truthy stats.verified && decide (followers > 10000)
      && (truthy stats.default_profile || truthy stats.default_image) then "Entity"
  else if decide (followers > 1000) && decide (following > 0)
      && decide ((followers : ℚ) / (following : ℚ) > 10) then "Creator"
  else if score ≥ 55/100 then "Human"
  else "Other"

/-- Decimal.quantize to four decimal places.  Decimal rounds half to even,
but every value the scorer quantizes is an exact multiple of 1/100, so no
rounding ever takes place and the midpoint convention is immaterial. -/
def quantize4 (q : ℚ) : ℚ := ((round (q * 10000) : ℤ) : ℚ) / 10000

/-- Breakdown of the heuristic score (scoring/heuristic/types.py). -/
structure HASScoreBreakdown where
  bio_score : ℚ
  engagement_score : ℚ
  account_age_score : ℚ
  verification_score : ℚ
deriving Repr, DecidableEq

/-- Result of the heuristic scorer (scoring/heuristic/types.py). -/
structure HASResult where
  score : ℚ
  likely_is : String
  breakdown : HASScoreBreakdown
deriving Repr, DecidableEq

/-- scorer.py compute_has: sum the four components, clamp into [0, 1],
classify, and quantize every reported number to four decimal places. -/
def compute_has (stats : UserStats) (bio : Option String) : HASResult :=
  let bio_score := compute_bio_score bio
  let engagement_score := compute_engagement_score stats
  let account_age_score := compute_account_age_score stats
  let verification_score := compute_verification_score stats
  let total := bio_score + engagement_score + account_age_score + verification_score
  let total := min 1 (max 0 total)
  let likely_is := classify total stats
  { score := quantize4 total
    likely_is := likely_is
    breakdown :=
      { bio_score := quantize4 bio_score
        engagement_score := quantize4 engagement_score
        account_age_score := quantize4 account_age_score
        verification_score := quantize4 verification_score } }

/-! ## Spec-side restatements for the scorer claims -/

/-- Spec 4.1: the classification rule list in priority order, each entry
pairing a rule condition (for a given total score and stats record) with the
label the rule assigns. -/
def classification_rules (score : ℚ) (stats : UserStats) : List (Bool × String) :=
  let followers : Int := stats.followers.getD 0
  let following : Int := stats.following.getD 0
  [ (decide (score < 30/100), "Bot"),
    (truthy stats.verified && decide (followers > 10000)
      && (truthy stats.default_profile || truthy stats.default_image), "Entity"),
    (decide (followers > 1000) && decide (following > 0)
      && decide ((followers : ℚ) / (following : ℚ) > 10), "Creator"),
    (decide (score ≥ 55/100), "Human") ]

/-- First-match-wins evaluation of a rule list against a default label. -/
def first_match : List (Bool × String) → String → String
  | [], d => d
  | (c, r) :: rest, d => if c then r else first_match rest d

/-- Spec-side classifier: evaluate the rules of spec 4.1 in priority order,
first match wins, defaulting to Other. -/
def spec_classify (score : ℚ) (stats : UserStats) : String :=
  first_match (classification_rules score stats) "Other"

/-- A stats record with score-irrelevant fields fixed: legacy-verified,
50,000 followers, default profile theme. -/
def entity_example_stats : UserStats :=
  { followers := some 50000, following := some 100, statuses := some 5000
    favorites := some 2000, listed := some 50, media := some 100
    verified := some true, blue_verified := some true
    default_profile := some true, default_image := some false
    sensitive := some false, can_dm := some true }

/-- Spec-side bio score tier by trimmed length (spec 4.1). -/
def bio_tier (length : Nat) : ℚ :=
  if length < 10 then 5/100
  else if length < 50 then 10/100
  else if length < 100 then 15/100
  else if length < 160 then 20/100
  else 25/100

/-- C1: the classification is exactly the first-match-wins evaluation of the
five prioritized rules (Bot, Entity, Creator, Human, then Other); a record
with total score 0.95, legacy verification, 50,000 followers and a default
profile theme classifies Entity, and any record with total score 0.10
classifies Bot regardless of its follower ratio. -/
theorem classify_priority_order :
    (∀ (score : ℚ) (stats : UserStats), classify score stats = spec_classify score stats) ∧
    classify (95/100) entity_example_stats = "Entity" ∧
    (∀ stats : UserStats, classify (10/100) stats = "Bot") := by
  refine ⟨?_, ?_, ?_⟩
  · intro score stats
    simp only [classify, spec_classify, classification_rules, first_match,
      Bool.and_eq_true, Bool.or_eq_true, decide_eq_true_eq]
  · norm_num [classify, truthy, entity_example_stats]
  · intro stats
    norm_num [classify]

/-- C2 counterexample: a whitespace-only bio is not falsy in Python, so it is
scored by its stripped length 0 and receives 0.05, not 0.00. -/
theorem bio_score_whitespace_counterexample :
    compute_bio_score (some "   ") = 5/100 ∧ compute_bio_score (some "   ") ≠ 0 := by
  have h : compute_bio_score (some "   ") = 5/100 := by
    have hl : stripped_length "   " = 0 := by decide
    rw [compute_bio_score]
    rw [if_neg (by decide : ¬"   " = "")]
    norm_num [hl]
  exact ⟨h, by rw [h]; norm_num⟩

/-- C2 (amended): an absent bio or the empty string scores 0.00; any other
bio (including a whitespace-only one) is scored by the tier of its trimmed
length; with bio absent the reported bio breakdown component is 0.0000
exactly. -/
theorem bio_score_tiers :
    compute_bio_score none = 0 ∧
    compute_bio_score (some "") = 0 ∧
    (∀ b : String, b ≠ "" → compute_bio_score (some b) = bio_tier (stripped_length b)) ∧
    (∀ stats : UserStats, (compute_has stats none).breakdown.bio_score = 0) := by
  refine ⟨rfl, rfl, ?_, ?_⟩
  · intro b hb
    simp [compute_bio_score, bio_tier, hb]
  · intro stats
    simp [compute_has, compute_bio_score, quantize4]

/-- C2 witness: instance of the tier clause at a concrete bio. -/
theorem bio_score_tiers_witness :
    compute_bio_score (some "hello") = bio_tier (stripped_length "hello") :=
  bio_score_tiers.2.2.1 "hello" (by decide)

/-- Any first-match evaluation of the four-rule chain lands in the five
classification labels. -/
theorem classify_shape_mem (c1 c4 : Prop) [Decidable c1] [Decidable c4] (c2 c3 : Bool) :
    (if c1 then "Bot"
     else if c2 then "Entity"
     else if c3 then "Creator"
     else if c4 then "Human"
     else "Other") ∈ (["Bot", "Entity", "Creator", "Human", "Other"] : List String) := by
  split_ifs <;> simp

/-- C10: compute_has is total on records with absent numeric fields (each
absent field behaves as 0), the following = 0 guard makes the engagement
ratio oblivious to a zero following count, and the classification is always
one of the five values Bot, Entity, Creator, Human, Other. -/
theorem compute_has_total :
    (∀ (stats : UserStats) (bio : Option String),
      (compute_has stats bio).likely_is ∈ (["Bot", "Entity", "Creator", "Human", "Other"] : List String)) ∧
    (∀ (stats : UserStats) (bio : Option String),
      compute_has { stats with followers := none } bio
        = compute_has { stats with followers := some 0 } bio ∧
      compute_has { stats with following := none } bio
        = compute_has { stats with following := some 0 } bio ∧
      compute_has { stats with statuses := none } bio
        = compute_has { stats with statuses := some 0 } bio ∧
      compute_has { stats with favorites := none } bio
        = compute_has { stats with favorites := some 0 } bio ∧
      compute_has { stats with listed := none } bio
        = compute_has { stats with listed := some 0 } bio ∧
      compute_has { stats with media := none } bio
        = compute_has { stats with media := some 0 } bio) ∧
    (∀ stats : UserStats,
      compute_engagement_score { stats with following := some 0 }
        = compute_engagement_score { stats with following := some 1 }) := by
  refine ⟨?_, ?_, ?_⟩
  · intro stats bio
    show classify _ stats ∈ _
    unfold classify
    exact classify_shape_mem _ _ _ _
  · intro stats bio
    cases stats
    exact ⟨rfl, rfl, rfl, rfl, rfl, rfl⟩
  · intro stats
    cases stats
    rfl

/-! ## Search usage records and pagination (airflow/tasks/keywords.py) -/

/-- Row of the api_search_usage table (db/models.py); timestamps are
abstracted to integers. -/
structure ApiSearchUsage where
  ids_hash : String
  keyword : String
  items : Int
  next_page : Option String
  page : Int
  new_profiles : Int
  platform : String
  query_at : Int
deriving Repr, DecidableEq

/-- order_by(page desc).first() over a row list: a row with the maximal page
number (the earliest such row when pages tie; SQL leaves tie order
unspecified). -/
def max_page_record : List ApiSearchUsage → Option ApiSearchUsage
  | [] => none
  | r :: rest =>
    match max_page_record rest with
    | none => some r
    | some m => if m.page > r.page then some m else some r

/-- The filtered query of keywords.py: the rows of one (keyword, platform). -/
def search_rows (db : List ApiSearchUsage) (keyword platform : String) : List ApiSearchUsage :=
  db.filter (fun r => r.keyword = keyword && r.platform = platform)

/-- The shared query of get_pagination_state and _has_pagination_available:
highest-page row for the (keyword, platform) pair. -/
def latest_search (db : List ApiSearchUsage) (keyword platform : String) : Option ApiSearchUsage :=
  max_page_record (search_rows db keyword platform)

/-- keywords.py get_pagination_state. -/
def get_pagination_state (db : List ApiSearchUsage) (keyword platform : String) :
    Option String × Int :=
  match latest_search db keyword platform with
  | none => (none, 0)
  | some latest => (latest.next_page, latest.page + 1)

/-- keywords.py _has_pagination_available: no search yet, or the latest row
still has a next_page cursor. -/
def has_pagination_available (db : List ApiSearchUsage) (keyword platform : String) : Bool :=
  match latest_search db keyword platform with
  | none => true
  | some latest => latest.next_page.isSome

theorem max_page_record_eq_none_iff (l : List ApiSearchUsage) :
    max_page_record l = none ↔ l = [] := by
  cases l with
  | nil => simp [max_page_record]
  | cons r rest =>
    simp only [max_page_record]
    cases hrec : max_page_record rest with
    | none => simp
    | some m =>
      dsimp only
      split <;> simp

theorem max_page_record_mem {l : List ApiSearchUsage} {m : ApiSearchUsage}
    (h : max_page_record l = some m) : m ∈ l := by
  induction l generalizing m with
  | nil => simp [max_page_record] at h
  | cons r rest ih =>
    simp only [max_page_record] at h
    cases hrec : max_page_record rest with
    | none =>
      rw [hrec] at h
      dsimp only at h
      simp only [Option.some.injEq] at h
      simp [h]
    | some m' =>
      rw [hrec] at h
      dsimp only at h
      by_cases hc : m'.page > r.page
      · rw [if_pos hc] at h
        simp only [Option.some.injEq] at h
        subst h
        exact List.mem_cons_of_mem _ (ih hrec)
      · rw [if_neg hc] at h
        simp only [Option.some.injEq] at h
        simp [h]

theorem max_page_record_max {l : List ApiSearchUsage} {m : ApiSearchUsage}
    (h : max_page_record l = some m) : ∀ r ∈ l, r.page ≤ m.page := by
  induction l generalizing m with
  | nil => simp
  | cons r rest ih =>
    simp only [max_page_record] at h
    cases hrec : max_page_record rest with
    | none =>
      rw [hrec] at h
      dsimp only at h
      simp only [Option.some.injEq] at h
      subst h
      have hnil : rest = [] := (max_page_record_eq_none_iff rest).1 hrec
      subst hnil
      simp
    | some m' =>
      rw [hrec] at h
      dsimp only at h
      intro x hx
      rcases List.mem_cons.1 hx with hx | hx
      · subst hx
        by_cases hc : m'.page > x.page
        · rw [if_pos hc] at h
          simp only [Option.some.injEq] at h
          subst h
          omega
        · rw [if_neg hc] at h
          simp only [Option.some.injEq] at h
          subst h
          omega
      · have hx' := ih hrec x hx
        by_cases hc : m'.page > r.page
        · rw [if_pos hc] at h
          simp only [Option.some.injEq] at h
          subst h
          omega
        · rw [if_neg hc] at h
          simp only [Option.some.injEq] at h
          subst h
          omega

/-- C4: with no record for the (keyword, platform) pair the pagination state
is (null cursor, page 0) and the keyword is eligible; with records, the state
is the highest-page record's next_page and page + 1; and the keyword is
exhausted exactly when a highest-page record exists whose next_page is null. -/
theorem pagination_state_spec :
    ∀ (db : List ApiSearchUsage) (keyword platform : String),
    ((∀ r ∈ db, ¬(r.keyword = keyword ∧ r.platform = platform)) →
      get_pagination_state db keyword platform = (none, 0) ∧
      has_pagination_available db keyword platform = true) ∧
    ((∃ r ∈ db, r.keyword = keyword ∧ r.platform = platform) →
      ∃ latest, latest_search db keyword platform = some latest) ∧
    (∀ latest, latest_search db keyword platform = some latest →
      latest ∈ db ∧ latest.keyword = keyword ∧ latest.platform = platform ∧
      (∀ r ∈ db, r.keyword = keyword → r.platform = platform → r.page ≤ latest.page) ∧
      get_pagination_state db keyword platform = (latest.next_page, latest.page + 1)) ∧
    (has_pagination_available db keyword platform = false ↔
      ∃ latest, latest_search db keyword platform = some latest ∧ latest.next_page = none) := by
  intro db keyword platform
  refine ⟨?_, ?_, ?_, ?_⟩
  · intro h
    have hrows : search_rows db keyword platform = [] := by
      simp only [search_rows, List.filter_eq_nil_iff]
      intro r hr
      simp only [Bool.and_eq_true, decide_eq_true_eq]
      intro hcontra
      exact h r hr hcontra
    have : latest_search db keyword platform = none := by
      simp [latest_search, hrows, max_page_record]
    exact ⟨by simp [get_pagination_state, this], by simp [has_pagination_available, this]⟩
  · rintro ⟨r, hr, hkw, hpf⟩
    rcases hlatest : latest_search db keyword platform with _ | latest
    · rw [latest_search, max_page_record_eq_none_iff] at hlatest
      have : r ∈ search_rows db keyword platform := by
        simp [search_rows, List.mem_filter, hr, hkw, hpf]
      rw [hlatest] at this
      simp at this
    · exact ⟨latest, rfl⟩
  · intro latest hlatest
    have hmem := max_page_record_mem hlatest
    simp only [search_rows, List.mem_filter, Bool.and_eq_true, decide_eq_true_eq] at hmem
    refine ⟨hmem.1, hmem.2.1, hmem.2.2, ?_, by simp [get_pagination_state, hlatest]⟩
    intro r hr hkw hpf
    exact max_page_record_max hlatest r
      (by simp [search_rows, List.mem_filter, hr, hkw, hpf])
  · rw [has_pagination_available]
    rcases hlatest : latest_search db keyword platform with _ | latest
    · simp
    · simp [Option.isSome_iff_exists, Option.isNone_iff_eq_none]

/-- C4 witness: a pair with a page-3 record carrying a cursor resumes at
(that cursor, page 4). -/
theorem pagination_state_spec_witness :
    get_pagination_state
      [{ ids_hash := "h1", keyword := "ai", items := 20, next_page := some "cur3",
         page := 3, new_profiles := 5, platform := "twitter", query_at := 10 },
       { ids_hash := "h0", keyword := "ai", items := 20, next_page := some "cur1",
         page := 1, new_profiles := 7, platform := "twitter", query_at := 5 }]
      "ai" "twitter" = (some "cur3", 4) := by
  have h := (pagination_state_spec
    [{ ids_hash := "h1", keyword := "ai", items := 20, next_page := some "cur3",
       page := 3, new_profiles := 5, platform := "twitter", query_at := 10 },
     { ids_hash := "h0", keyword := "ai", items := 20, next_page := some "cur1",
       page := 1, new_profiles := 7, platform := "twitter", query_at := 5 }]
    "ai" "twitter").2.2.1
    { ids_hash := "h1", keyword := "ai", items := 20, next_page := some "cur3",
      page := 3, new_profiles := 5, platform := "twitter", query_at := 10 }
    (by rfl)
  exact h.2.2.2.2

/-! ## Keyword selector (airflow/tasks/keywords.py get_valid_keywords) -/

/-- The columns of keyword_stats that the keyword selector reads. -/
structure KeywordStatsRow where
  keyword : String
  avg_human_score : ℚ
  still_valid : Bool
deriving Repr, DecidableEq

/-- Insertion into a list ordered by avg_human_score descending. -/
def insert_by_avg (r : KeywordStatsRow) : List KeywordStatsRow → List KeywordStatsRow
  | [] => [r]
  | x :: xs =>
    if r.avg_human_score ≥ x.avg_human_score then r :: x :: xs
    else x :: insert_by_avg r xs

/-- order_by(avg_human_score desc) of the keyword query. -/
def sort_by_avg_desc (l : List KeywordStatsRow) : List KeywordStatsRow :=
  l.foldr insert_by_avg []

/-- keywords.py _fetch_valid_keywords: keywords with still_valid set, ordered
by average authenticity score descending. -/
def fetch_valid_keywords (stats : List KeywordStatsRow) : List String :=
  (sort_by_avg_desc (stats.filter (fun r => r.still_valid))).map (fun r => r.keyword)

/-- The loop of keywords.py _filter_by_pagination: stop once count keywords
are selected, append an eligible keyword, silently skip an exhausted one. -/
def filter_by_pagination_go (db : List ApiSearchUsage) (platform : String) (count : Nat) :
    List String → List String → List String
  | [], selected => selected
  | keyword :: rest, selected =>
    if selected.length ≥ count then selected
    else if has_pagination_available db keyword platform then
      filter_by_pagination_go db platform count rest (selected ++ [keyword])
    else
      filter_by_pagination_go db platform count rest selected

/-- keywords.py _filter_by_pagination. -/
def filter_by_pagination (db : List ApiSearchUsage) (keywords : List String)
    (count : Nat) (platform : String) : List String :=
  filter_by_pagination_go db platform count keywords []

/-- keywords.py get_valid_keywords: fetch the still_valid keywords, shuffle
them (the random shuffle is passed in as a function), then filter by
pagination availability.  An empty candidate list returns early. -/
def get_valid_keywords (shuffle : List String → List String)
    (stats : List KeywordStatsRow) (db : List ApiSearchUsage)
    (count : Nat) (platform : String) : List String :=
  let keywords := fetch_valid_keywords stats
  if keywords = [] then []
  else filter_by_pagination db (shuffle keywords) count platform

theorem insert_by_avg_perm (r : KeywordStatsRow) (l : List KeywordStatsRow) :
    (insert_by_avg r l).Perm (r :: l) := by
  induction l with
  | nil => simp [insert_by_avg]
  | cons x xs ih =>
    simp only [insert_by_avg]
    split
    · exact List.Perm.refl _
    · exact ((ih.cons x).trans (List.Perm.swap r x xs))

theorem sort_by_avg_desc_perm (l : List KeywordStatsRow) :
    (sort_by_avg_desc l).Perm l := by
  induction l with
  | nil => simp [sort_by_avg_desc]
  | cons x xs ih =>
    simpa [sort_by_avg_desc] using (insert_by_avg_perm x (sort_by_avg_desc xs)).trans (ih.cons x)

theorem mem_fetch_valid_keywords {stats : List KeywordStatsRow} {k : String} :
    k ∈ fetch_valid_keywords stats ↔
      ∃ row ∈ stats, row.keyword = k ∧ row.still_valid = true := by
  unfold fetch_valid_keywords
  rw [List.mem_map]
  constructor
  · rintro ⟨row, hrow, rfl⟩
    have hmem := (sort_by_avg_desc_perm _).mem_iff.1 hrow
    rw [List.mem_filter] at hmem
    exact ⟨row, hmem.1, rfl, hmem.2⟩
  · rintro ⟨row, hrow, rfl, hvalid⟩
    exact ⟨row, (sort_by_avg_desc_perm _).mem_iff.2 (List.mem_filter.2 ⟨hrow, hvalid⟩), rfl⟩

theorem filter_by_pagination_go_spec (db : List ApiSearchUsage) (platform : String)
    (count : Nat) :
    ∀ (keywords selected : List String), selected.length ≤ count →
      filter_by_pagination_go db platform count keywords selected
        = selected ++ (keywords.filter
            (fun k => has_pagination_available db k platform)).take (count - selected.length) := by
  intro keywords
  induction keywords with
  | nil => intro selected hsel; simp [filter_by_pagination_go]
  | cons k rest ih =>
    intro selected hsel
    simp only [filter_by_pagination_go]
    by_cases hfull : selected.length ≥ count
    · have hzero : count - selected.length = 0 := by omega
      rw [if_pos hfull, hzero]
      simp
    · rw [if_neg hfull]
      by_cases helig : has_pagination_available db k platform
      · rw [if_pos helig]
        rw [ih (selected ++ [k]) (by simp; omega)]
        simp only [List.filter_cons, helig, if_pos]
        have hlen : (selected ++ [k]).length = selected.length + 1 := by simp
        rw [hlen]
        have htake : count - selected.length = (count - (selected.length + 1)) + 1 := by omega
        rw [htake, List.take_succ_cons]
        simp
      · rw [if_neg helig]
        rw [ih selected (by omega)]
        simp only [List.filter_cons]
        rw [if_neg (by simp [helig])]

/-- C5: the keyword selector returns exactly the first count shuffled
still_valid keywords that pass the pagination-eligibility check (exhausted
keywords are skipped without consuming the limit), hence at most count
keywords, all still_valid and eligible; and for any eligible still_valid
keyword there is a shuffle outcome under which it is selected. -/
theorem keyword_selector_spec :
    (∀ (shuffle : List String → List String) (stats : List KeywordStatsRow)
       (db : List ApiSearchUsage) (count : Nat) (platform : String),
      (∀ l, (shuffle l).Perm l) →
      get_valid_keywords shuffle stats db count platform
        = ((shuffle (fetch_valid_keywords stats)).filter
            (fun k => has_pagination_available db k platform)).take count ∧
      (get_valid_keywords shuffle stats db count platform).length ≤ count ∧
      (∀ k ∈ get_valid_keywords shuffle stats db count platform,
        (∃ row ∈ stats, row.keyword = k ∧ row.still_valid = true) ∧
        has_pagination_available db k platform = true)) ∧
    (∀ (stats : List KeywordStatsRow) (db : List ApiSearchUsage)
       (count : Nat) (platform : String) (k : String),
      0 < count →
      (∃ row ∈ stats, row.keyword = k ∧ row.still_valid = true) →
      has_pagination_available db k platform = true →
      ∃ shuffle : List String → List String, (∀ l, (shuffle l).Perm l) ∧
        k ∈ get_valid_keywords shuffle stats db count platform) := by
  constructor
  · intro shuffle stats db count platform hperm
    have hchar : get_valid_keywords shuffle stats db count platform
        = ((shuffle (fetch_valid_keywords stats)).filter
            (fun k => has_pagination_available db k platform)).take count := by
      unfold get_valid_keywords
      by_cases hnil : fetch_valid_keywords stats = []
      · rw [if_pos hnil]
        have : shuffle (fetch_valid_keywords stats) = [] := by
          rw [hnil]
          exact List.Perm.eq_nil (hperm [])
        rw [this]
        simp
      · rw [if_neg hnil]
        unfold filter_by_pagination
        rw [filter_by_pagination_go_spec db platform count _ [] (by simp)]
        simp
    refine ⟨hchar, ?_, ?_⟩
    · rw [hchar]
      exact le_trans (List.length_take_le _ _) (le_refl _)
    · intro k hk
      rw [hchar] at hk
      have hk' := List.mem_of_mem_take hk
      rw [List.mem_filter] at hk'
      refine ⟨?_, hk'.2⟩
      have := (hperm (fetch_valid_keywords stats)).mem_iff.1 hk'.1
      exact mem_fetch_valid_keywords.1 this
  · intro stats db count platform k hcount hrow helig
    refine ⟨fun l => if k ∈ l then k :: l.erase k else l, ?_, ?_⟩
    · intro l
      by_cases hkl : k ∈ l
      · simpa [hkl] using (List.perm_cons_erase hkl).symm
      · simp [hkl]
    · have hk : k ∈ fetch_valid_keywords stats := mem_fetch_valid_keywords.2 hrow
      have hnil : fetch_valid_keywords stats ≠ [] := by
        intro hcontra
        rw [hcontra] at hk
        simp at hk
      unfold get_valid_keywords
      rw [if_neg hnil]
      unfold filter_by_pagination
      rw [filter_by_pagination_go_spec db platform count _ [] (by simp)]
      simp only [hk, if_pos, List.nil_append, List.length_nil, Nat.sub_zero]
      rw [List.filter_cons, if_pos (by simpa using helig)]
      rcases count with _ | n
      · omega
      · rw [List.take_succ_cons]
        exact List.mem_cons_self _ _

/-- C5 witness: with the identity shuffle, one still_valid keyword with an
available cursor and one exhausted keyword, only the eligible keyword is
selected. -/
theorem keyword_selector_spec_witness :
    get_valid_keywords (fun l => l)
      [{ keyword := "ai", avg_human_score := 1/2, still_valid := true },
       { keyword := "ml", avg_human_score := 3/4, still_valid := true }]
      [{ ids_hash := "h", keyword := "ml", items := 20, next_page := none,
         page := 0, new_profiles := 0, platform := "twitter", query_at := 1 }]
      2 "twitter"
      = (((fun (l : List String) => l)
          (fetch_valid_keywords
            [{ keyword := "ai", avg_human_score := 1/2, still_valid := true },
             { keyword := "ml", avg_human_score := 3/4, still_valid := true }])).filter
          (fun k => has_pagination_available
            [{ ids_hash := "h", keyword := "ml", items := 20, next_page := none,
               page := 0, new_profiles := 0, platform := "twitter", query_at := 1 }]
            k "twitter")).take 2 :=
  ((keyword_selector_spec.1 (fun l => l)
    [{ keyword := "ai", avg_human_score := 1/2, still_valid := true },
     { keyword := "ml", avg_human_score := 3/4, still_valid := true }]
    [{ ids_hash := "h", keyword := "ml", items := 20, next_page := none,
       page := 0, new_profiles := 0, platform := "twitter", query_at := 1 }]
    2 "twitter") (fun l => List.Perm.refl l)).1

/-! ## Profile ingestion and scoring-queue admission (airflow/tasks/storage.py) -/

/-- The legacy block of a raw Twitter API user: only the fields the storage
paths read are modelled. -/
structure TwitterUserLegacy where
  screen_name : String
  name : String
  description : Option String
deriving Repr, DecidableEq

/-- A raw Twitter API user as consumed by storage.py. -/
structure TwitterApiUser where
  rest_id : String
  legacy : TwitterUserLegacy
deriving Repr, DecidableEq

/-- tasks/search.py ProcessedProfile: a profile with its computed HAS. -/
structure ProcessedProfile where
  user : TwitterApiUser
  has_result : HASResult
  keyword : String
  platform : String
deriving Repr, DecidableEq

/-- Row of the profiles_to_score queue table (db/models.py); twitter_id
carries a unique constraint. -/
structure ProfileToScore where
  twitter_id : String
  handle : String
deriving Repr, DecidableEq

/-- storage.py _queue_for_scoring: query the queue for the profile id and
insert only when no entry exists; returns the new queue and whether an
insert happened. -/
def queue_for_scoring (queue : List ProfileToScore) (profile : ProcessedProfile) :
    List ProfileToScore × Bool :=
  match queue.find? (fun e => e.twitter_id = profile.user.rest_id) with
  | some _ => (queue, false)
  | none =>
    (queue ++ [{ twitter_id := profile.user.rest_id,
                 handle := profile.user.legacy.screen_name }], true)

/-- The queue step of storage.py store_search_results: _queue_for_scoring is
invoked only when the HAS score strictly exceeds the threshold (Python
short-circuit of the `and`). -/
def store_queue_step (has_threshold : ℚ) (queue : List ProfileToScore)
    (profile : ProcessedProfile) : List ProfileToScore × Bool :=
  if profile.has_result.score > has_threshold then queue_for_scoring queue profile
  else (queue, false)

/-- Number of queue rows for a given profile id. -/
def queue_count (queue : List ProfileToScore) (id : String) : Nat :=
  (queue.filter (fun e => e.twitter_id = id)).length

theorem queue_count_eq_zero_iff_find_none (queue : List ProfileToScore) (id : String) :
    queue_count queue id = 0 ↔ queue.find? (fun e => e.twitter_id = id) = none := by
  rw [queue_count, List.length_eq_zero, List.filter_eq_nil_iff, List.find?_eq_none]

theorem queue_count_append (queue : List ProfileToScore) (e : ProfileToScore) (id : String) :
    queue_count (queue ++ [e]) id
      = queue_count queue id + (if e.twitter_id = id then 1 else 0) := by
  rw [queue_count, queue_count, List.filter_append]
  simp only [List.length_append, List.filter_cons, List.filter_nil]
  by_cases h : e.twitter_id = id
  · simp [h]
  · simp [h]

/-- C3: queue admission inserts exactly when the score exceeds the threshold
and no entry exists for the profile id; no entry is ever removed; the
one-entry-per-id invariant is preserved; and two store operations carrying
the same profile id leave exactly one row for that id. -/
theorem scoring_queue_admission :
    ∀ (has_threshold : ℚ) (queue : List ProfileToScore) (profile : ProcessedProfile),
    ((store_queue_step has_threshold queue profile).2 = true ↔
      profile.has_result.score > has_threshold ∧
      queue_count queue profile.user.rest_id = 0) ∧
    (∀ e ∈ queue, e ∈ (store_queue_step has_threshold queue profile).1) ∧
    (∀ id, queue_count queue id ≤ 1 →
      queue_count (store_queue_step has_threshold queue profile).1 id ≤ 1) ∧
    (∀ (th2 : ℚ) (p2 : ProcessedProfile), p2.user.rest_id = profile.user.rest_id →
      queue_count queue profile.user.rest_id = 0 →
      profile.has_result.score > has_threshold →
      queue_count
        (store_queue_step th2 (store_queue_step has_threshold queue profile).1 p2).1
        profile.user.rest_id = 1) := by
  intro has_threshold queue profile
  have hstep : ∀ (th : ℚ) (q : List ProfileToScore) (p : ProcessedProfile),
      (store_queue_step th q p).1 = q ∨
      ((store_queue_step th q p).1
          = q ++ [{ twitter_id := p.user.rest_id, handle := p.user.legacy.screen_name }] ∧
        queue_count q p.user.rest_id = 0) := by
    intro th q p
    rw [store_queue_step]
    split
    · rw [queue_for_scoring]
      rcases hfind : q.find? (fun e => e.twitter_id = p.user.rest_id) with _ | e
      · right
        rw [hfind]
        exact ⟨rfl, (queue_count_eq_zero_iff_find_none q _).2 hfind⟩
      · left
        rw [hfind]
    · left
      rfl
  refine ⟨?_, ?_, ?_, ?_⟩
  · rw [store_queue_step]
    split
    · rw [queue_for_scoring]
      rcases hfind : queue.find? (fun e => e.twitter_id = profile.user.rest_id) with _ | e
      · rw [hfind]
        dsimp only
        constructor
        · intro _
          exact ⟨by assumption, (queue_count_eq_zero_iff_find_none queue _).2 hfind⟩
        · intro _
          rfl
      · rw [hfind]
        dsimp only
        simp only [Bool.false_eq_true, false_iff, not_and]
        intro _ hzero
        rw [queue_count_eq_zero_iff_find_none] at hzero
        rw [hzero] at hfind
        exact absurd hfind (by simp)
    · simp only [Bool.false_eq_true, false_iff, not_and]
      intro hscore
      exact absurd hscore (by assumption)
  · intro e he
    rcases hstep has_threshold queue profile with h | ⟨h, _⟩ <;> rw [h]
    · exact he
    · exact List.mem_append_left _ he
  · intro id hle
    rcases hstep has_threshold queue profile with h | ⟨h, hzero⟩ <;> rw [h]
    · exact hle
    · rw [queue_count_append]
      dsimp only
      by_cases heq : profile.user.rest_id = id
      · rw [if_pos heq]
        have h0 : queue_count queue id = 0 := by
          rw [← heq]
          exact hzero
        omega
      · rw [if_neg heq]
        omega
  · intro th2 p2 hid hzero hscore
    have h1 : (store_queue_step has_threshold queue profile).1
        = queue ++ [{ twitter_id := profile.user.rest_id,
                      handle := profile.user.legacy.screen_name }] := by
      rw [store_queue_step, if_pos hscore, queue_for_scoring,
        (queue_count_eq_zero_iff_find_none queue _).1 hzero]
    have hcount1 : queue_count (store_queue_step has_threshold queue profile).1
        profile.user.rest_id = 1 := by
      rw [h1, queue_count_append, hzero]
      simp
    rcases hstep th2 (store_queue_step has_threshold queue profile).1 p2 with h | ⟨_, hz2⟩
    · rw [h, hcount1]
    · rw [hid] at hz2
      rw [hcount1] at hz2
      exact absurd hz2 (by omega)

/-- C3 witness: storing a high-scoring profile twice into an empty queue
leaves exactly one row for its id. -/
theorem scoring_queue_admission_witness :
    queue_count
      (store_queue_step (65/100)
        (store_queue_step (65/100) []
          { user := { rest_id := "42",
                      legacy := { screen_name := "tester", name := "Tester",
                                  description := some "bio" } },
            has_result := { score := 9/10, likely_is := "Human",
                            breakdown := { bio_score := 1/4, engagement_score := 7/20,
                                           account_age_score := 1/5,
                                           verification_score := 1/10 } },
            keyword := "ai", platform := "twitter" }).1
        { user := { rest_id := "42",
                    legacy := { screen_name := "tester", name := "Tester",
                                description := some "bio" } },
          has_result := { score := 9/10, likely_is := "Human",
                          breakdown := { bio_score := 1/4, engagement_score := 7/20,
                                         account_age_score := 1/5,
                                         verification_score := 1/10 } },
          keyword := "ai", platform := "twitter" }).1
      "42" = 1 :=
  ((scoring_queue_admission (65/100) []
    { user := { rest_id := "42",
                legacy := { screen_name := "tester", name := "Tester",
                            description := some "bio" } },
      has_result := { score := 9/10, likely_is := "Human",
                      breakdown := { bio_score := 1/4, engagement_score := 7/20,
                                     account_age_score := 1/5,
                                     verification_score := 1/10 } },
      keyword := "ai", platform := "twitter" }).2.2.2 (65/100)
    { user := { rest_id := "42",
                legacy := { screen_name := "tester", name := "Tester",
                            description := some "bio" } },
      has_result := { score := 9/10, likely_is := "Human",
                      breakdown := { bio_score := 1/4, engagement_score := 7/20,
                                     account_age_score := 1/5,
                                     verification_score := 1/10 } },
      keyword := "ai", platform := "twitter" }
    rfl rfl (by norm_num))

/-! ## Profile rediscovery update (storage.py _upsert_profile, update branch) -/

/-- Row of the user_profiles table (db/models.py); timestamps abstracted to
integers. -/
structure UserProfile where
  twitter_id : String
  handle : String
  name : String
  bio : Option String
  created_at : String
  follower_count : Option Int
  location : Option String
  updated_at : Int
  got_by_keywords : Option (List String)
  can_dm : Option Bool
  category : Option String
  human_score : Option ℚ
  likely_is : Option String
  platform : String
deriving Repr, DecidableEq

/-- The update branch of storage.py _upsert_profile: append the discovery
keyword when missing (initialising a null list), then touch updated_at.
No other column is assigned. -/
def update_existing_profile (existing : UserProfile) (keyword : String) (now : Int) :
    UserProfile :=
  let db_profile :=
    match existing.got_by_keywords with
    | none => { existing with got_by_keywords := some [keyword] }
    | some kws =>
      if keyword ∈ kws then existing
      else { existing with got_by_keywords := some (kws ++ [keyword]) }
  { db_profile with updated_at := now }

/-- Spec-side keyword merge: append only if absent, preserving order. -/
def merge_keyword (kws : List String) (keyword : String) : List String :=
  if keyword ∈ kws then kws else kws ++ [keyword]

/-- C8: rediscovering a stored profile keeps the first-discovery score and
classification, merges the keyword (append-at-end only when absent, existing
order preserved), touches updated_at, and modifies no other column. -/
theorem rediscovery_update_frame :
    ∀ (existing : UserProfile) (keyword : String) (now : Int),
    (update_existing_profile existing keyword now).human_score = existing.human_score ∧
    (update_existing_profile existing keyword now).likely_is = existing.likely_is ∧
    (update_existing_profile existing keyword now).got_by_keywords
      = some (merge_keyword (existing.got_by_keywords.getD []) keyword) ∧
    (update_existing_profile existing keyword now).updated_at = now ∧
    (∀ kws, existing.got_by_keywords = some kws →
      ∃ tail, (update_existing_profile existing keyword now).got_by_keywords
        = some (kws ++ tail)) ∧
    (update_existing_profile existing keyword now).twitter_id = existing.twitter_id ∧
    (update_existing_profile existing keyword now).handle = existing.handle ∧
    (update_existing_profile existing keyword now).name = existing.name ∧
    (update_existing_profile existing keyword now).bio = existing.bio ∧
    (update_existing_profile existing keyword now).created_at = existing.created_at ∧
    (update_existing_profile existing keyword now).follower_count = existing.follower_count ∧
    (update_existing_profile existing keyword now).location = existing.location ∧
    (update_existing_profile existing keyword now).can_dm = existing.can_dm ∧
    (update_existing_profile existing keyword now).category = existing.category ∧
    (update_existing_profile existing keyword now).platform = existing.platform := by
  intro existing keyword now
  cases existing with
  | mk twitter_id handle name bio created_at follower_count location updated_at
      got_by_keywords can_dm category human_score likely_is platform =>
    cases got_by_keywords with
    | none =>
      simp [update_existing_profile, merge_keyword]
    | some kws =>
      by_cases hmem : keyword ∈ kws
      · simp [update_existing_profile, merge_keyword, hmem]
      · simp [update_existing_profile, merge_keyword, hmem]

/-- C8 witness: rediscovering a profile found by "a" with keyword "b"
extends its keyword list, keeping "a" as a prefix. -/
theorem rediscovery_update_frame_witness :
    ∃ tail,
      (update_existing_profile
        { twitter_id := "42", handle := "tester", name := "Tester", bio := some "bio",
          created_at := "2020", follower_count := some 10, location := none,
          updated_at := 0, got_by_keywords := some ["a"], can_dm := none,
          category := none, human_score := some (9/10), likely_is := some "Human",
          platform := "twitter" } "b" 5).got_by_keywords = some (["a"] ++ tail) :=
  (rediscovery_update_frame
    { twitter_id := "42", handle := "tester", name := "Tester", bio := some "bio",
      created_at := "2020", follower_count := some 10, location := none,
      updated_at := 0, got_by_keywords := some ["a"], can_dm := none,
      category := none, human_score := some (9/10), likely_is := some "Human",
      platform := "twitter" } "b" 5).2.2.2.2.1 ["a"] rfl

/-! ## Keyword statistics aggregator (airflow/tasks/stats.py) -/

/-- Row of the profile_scores table (db/models.py): the label column is a
nullable boolean, null encoding Uncertain. -/
structure ProfileScore where
  twitter_id : String
  label : Option Bool
  reason : Option String
  scored_by : String
  audience : Option String
deriving Repr, DecidableEq

/-- Row of the user_keywords association table (db/models.py). -/
structure UserKeyword where
  twitter_id : String
  keyword : String
  search_id : Option String
deriving Repr, DecidableEq

/-- The SQL join of stats.py _get_label_stats: one row per pair of a
profile_scores row and a user_keywords row with the same twitter_id and the
given keyword. -/
def joined_scores (scores : List ProfileScore) (uks : List UserKeyword)
    (keyword : String) : List ProfileScore :=
  scores.flatMap (fun s =>
    (uks.filter (fun u => u.twitter_id = s.twitter_id && u.keyword = keyword)).map
      (fun _ => s))

/-- stats.py _get_label_stats: count of non-null labels and of true labels
over the join. -/
def get_label_stats (scores : List ProfileScore) (uks : List UserKeyword)
    (keyword : String) : Nat × Nat :=
  let joined := joined_scores scores uks keyword
  (joined.countP (fun s => s.label.isSome), joined.countP (fun s => s.label = some true))

/-- The label-rate computation of stats.py calculate_keyword_stats:
true_labels / total_labeled when total_labeled > 0, else 0.0. -/
def calculate_label_rate (scores : List ProfileScore) (uks : List UserKeyword)
    (keyword : String) : ℚ :=
  let label_stats := get_label_stats scores uks keyword
  if label_stats.1 > 0 then (label_stats.2 : ℚ) / (label_stats.1 : ℚ) else 0

/-- A profile-score row is associated with the keyword when some
user_keywords row links its profile to that keyword. -/
def associated (uks : List UserKeyword) (keyword : String) (s : ProfileScore) : Bool :=
  uks.any (fun u => u.twitter_id = s.twitter_id && u.keyword = keyword)

/-- Spec-side count of Match labels among the keyword's associated rows. -/
def spec_match_count (scores : List ProfileScore) (uks : List UserKeyword)
    (keyword : String) : Nat :=
  scores.countP (fun s => associated uks keyword s && s.label = some true)

/-- Spec-side count of Match-or-NoMatch labels among the associated rows;
Uncertain (null) and unlabeled profiles are excluded. -/
def spec_labeled_count (scores : List ProfileScore) (uks : List UserKeyword)
    (keyword : String) : Nat :=
  scores.countP (fun s =>
    associated uks keyword s && (s.label = some true || s.label = some false))

/-- Spec-side label rate: Match over Match-or-NoMatch, 0 when none. -/
def spec_label_rate (scores : List ProfileScore) (uks : List UserKeyword)
    (keyword : String) : ℚ :=
  if spec_labeled_count scores uks keyword = 0 then 0
  else (spec_match_count scores uks keyword : ℚ) / (spec_labeled_count scores uks keyword : ℚ)

/-- The invariant of spec section 3: at most one active association row per
(profile, keyword) pair. -/
def distinct_assoc (uks : List UserKeyword) : Prop :=
  List.Pairwise (fun u v => ¬(u.twitter_id = v.twitter_id ∧ u.keyword = v.keyword)) uks

theorem distinct_assoc_filter_len_le_one {uks : List UserKeyword}
    (h : distinct_assoc uks) (x keyword : String) :
    (uks.filter (fun u => u.twitter_id = x && u.keyword = keyword)).length ≤ 1 := by
  induction uks with
  | nil => simp
  | cons u rest ih =>
    rw [distinct_assoc, List.pairwise_cons] at h
    rw [List.filter_cons]
    by_cases hu : (u.twitter_id = x && u.keyword = keyword) = true
    · rw [if_pos hu]
      simp only [Bool.and_eq_true, decide_eq_true_eq] at hu
      have hrest : rest.filter (fun u => u.twitter_id = x && u.keyword = keyword) = [] := by
        rw [List.filter_eq_nil_iff]
        intro v hv
        simp only [Bool.and_eq_true, decide_eq_true_eq, not_and]
        intro hvx hvk
        exact absurd ⟨hu.1.trans hvx.symm, hu.2.trans hvk.symm⟩ (h.1 v hv)
      rw [hrest]
      simp
    · rw [if_neg hu]
      exact ih h.2

theorem joined_scores_countP {scores : List ProfileScore} {uks : List UserKeyword}
    {keyword : String} (h : distinct_assoc uks) (p : ProfileScore → Bool) :
    (joined_scores scores uks keyword).countP p
      = scores.countP (fun s => associated uks keyword s && p s) := by
  induction scores with
  | nil => simp [joined_scores]
  | cons s rest ih =>
    rw [joined_scores, List.flatMap_cons, List.countP_append]
    rw [joined_scores] at ih
    rw [ih, List.countP_cons]
    have hlen : ∀ (l : List UserKeyword),
        (l.map (fun _ => s)).countP p = if p s then l.length else 0 := by
      intro l
      induction l with
      | nil => simp
      | cons a as iha =>
        rw [List.map_cons, List.countP_cons, iha]
        by_cases hp : p s = true
        · simp [hp]
        · simp [hp]
    rw [hlen]
    by_cases hassoc : associated uks keyword s = true
    · have hpos : 0 < (uks.filter
          (fun u => u.twitter_id = s.twitter_id && u.keyword = keyword)).length := by
        rw [associated, List.any_eq_true] at hassoc
        obtain ⟨u, hu, hmatch⟩ := hassoc
        exact List.length_pos.2 (by
          intro hcontra
          have : u ∈ uks.filter (fun u => u.twitter_id = s.twitter_id && u.keyword = keyword) :=
            List.mem_filter.2 ⟨hu, hmatch⟩
          rw [hcontra] at this
          simp at this)
      have hone : (uks.filter
          (fun u => u.twitter_id = s.twitter_id && u.keyword = keyword)).length = 1 := by
        have := distinct_assoc_filter_len_le_one h s.twitter_id keyword
        omega
      rw [hone, hassoc]
      by_cases hp : p s = true
      · simp [hp]
        omega
      · simp [hp]
    · have hzero : (uks.filter
          (fun u => u.twitter_id = s.twitter_id && u.keyword = keyword)).length = 0 := by
        rw [List.length_eq_zero, List.filter_eq_nil_iff]
        intro u hu hcontra
        rw [associated] at hassoc
        exact absurd (List.any_eq_true.2 ⟨u, hu, hcontra⟩) hassoc
      rw [hzero]
      have hfalse : associated uks keyword s = false := Bool.eq_false_iff.2 hassoc
      rw [hfalse]
      simp

/-- C9: under the one-association-per-(profile, keyword) invariant, the
aggregator's label rate is the number of Match labels among the keyword's
associated profiles divided by the number of Match-or-NoMatch labels, and is
0 when that denominator is 0; Uncertain (null) and unlabeled rows count in
neither numerator nor denominator. -/
theorem label_rate_spec :
    ∀ (scores : List ProfileScore) (uks : List UserKeyword) (keyword : String),
    distinct_assoc uks →
    (get_label_stats scores uks keyword).1 = spec_labeled_count scores uks keyword ∧
    (get_label_stats scores uks keyword).2 = spec_match_count scores uks keyword ∧
    calculate_label_rate scores uks keyword = spec_label_rate scores uks keyword ∧
    (spec_labeled_count scores uks keyword = 0 →
      calculate_label_rate scores uks keyword = 0) := by
  intro scores uks keyword h
  have htotal : (get_label_stats scores uks keyword).1
      = spec_labeled_count scores uks keyword := by
    show (joined_scores scores uks keyword).countP (fun s => s.label.isSome)
        = spec_labeled_count scores uks keyword
    rw [joined_scores_countP h, spec_labeled_count]
    congr 1
    funext s
    cases hl : s.label with
    | none => simp
    | some b => cases b <;> simp
  have hmatch : (get_label_stats scores uks keyword).2
      = spec_match_count scores uks keyword := by
    show (joined_scores scores uks keyword).countP (fun s => s.label = some true)
        = spec_match_count scores uks keyword
    rw [joined_scores_countP h, spec_match_count]
  refine ⟨htotal, hmatch, ?_, ?_⟩
  · rw [calculate_label_rate, spec_label_rate, htotal, hmatch]
    by_cases hzero : spec_labeled_count scores uks keyword = 0
    · rw [if_pos hzero, if_neg (by omega)]
    · rw [if_neg hzero, if_pos (by omega)]
  · intro hzero
    rw [calculate_label_rate, htotal, if_neg (by omega)]

/-- C9 witness: one keyword-linked profile with one Match row, one NoMatch
row, and one Uncertain row has label rate 1/2 on both sides. -/
theorem label_rate_spec_witness :
    calculate_label_rate
      [{ twitter_id := "1", label := some true, reason := some "r1",
         scored_by := "m", audience := none },
       { twitter_id := "1", label := some false, reason := some "r2",
         scored_by := "n", audience := none },
       { twitter_id := "1", label := none, reason := none,
         scored_by := "o", audience := none }]
      [{ twitter_id := "1", keyword := "ai", search_id := none }] "ai"
      = spec_label_rate
      [{ twitter_id := "1", label := some true, reason := some "r1",
         scored_by := "m", audience := none },
       { twitter_id := "1", label := some false, reason := some "r2",
         scored_by := "n", audience := none },
       { twitter_id := "1", label := none, reason := none,
         scored_by := "o", audience := none }]
      [{ twitter_id := "1", keyword := "ai", search_id := none }] "ai" :=
  ((label_rate_spec
    [{ twitter_id := "1", label := some true, reason := some "r1",
       scored_by := "m", audience := none },
     { twitter_id := "1", label := some false, reason := some "r2",
       scored_by := "n", audience := none },
     { twitter_id := "1", label := none, reason := none,
       scored_by := "o", audience := none }]
    [{ twitter_id := "1", keyword := "ai", search_id := none }] "ai"
    (by simp [distinct_assoc])).2.2.1)

/-! ## LLM cost accounting (scoring/llm/labeler.py) -/

/-- labeler.py MODEL_PRICING: (input, output) price per million tokens. -/
def MODEL_PRICING : List (String × (ℚ × ℚ)) :=
  [("claude-haiku-4.5", (80/100, 4)),
   ("claude-sonnet-4.5", (3, 15)),
   ("claude-opus-4.5", (15, 75)),
   ("gemini-flash-2.0", (10/100, 40/100)),
   ("gemini-flash-1.5", (75/1000, 30/100)),
   ("meta-maverick-17b", (0, 0))]

/-- labeler.py DEFAULT_PRICING, used for aliases outside the table. -/
def DEFAULT_PRICING : ℚ × ℚ := (1, 5)

/-- MODEL_PRICING.get(alias, DEFAULT_PRICING). -/
def pricing_for (model_alias : String) : ℚ × ℚ :=
  (MODEL_PRICING.lookup model_alias).getD DEFAULT_PRICING

/-- labeler.py _calculate_cost: tokens over one million times the per-million
price, summed over input and output. -/
def calculate_cost (model_alias : String) (input_tokens output_tokens : Nat) : ℚ :=
  let pricing := pricing_for model_alias
  ((input_tokens : ℚ) / 1000000) * pricing.1 + ((output_tokens : ℚ) / 1000000) * pricing.2

/-- C7: the cost is (input / 1e6) x input-price + (output / 1e6) x
output-price with the per-model table and the default fallback; 100 input
and 50 output tokens at 0.80 / 4.00 per million cost exactly 0.00028. -/
theorem calculate_cost_formula :
    (∀ (model_alias : String) (input_tokens output_tokens : Nat),
      calculate_cost model_alias input_tokens output_tokens
        = ((input_tokens : ℚ) / 1000000) * (pricing_for model_alias).1
          + ((output_tokens : ℚ) / 1000000) * (pricing_for model_alias).2) ∧
    (∀ model_alias : String, MODEL_PRICING.lookup model_alias = none →
      pricing_for model_alias = DEFAULT_PRICING) ∧
    pricing_for "claude-haiku-4.5" = (80/100, 4) ∧
    calculate_cost "claude-haiku-4.5" 100 50 = 28/100000 := by
  have hhaiku : pricing_for "claude-haiku-4.5" = (80/100, 4) := by
    simp [pricing_for, MODEL_PRICING, List.lookup]
  refine ⟨fun _ _ _ => rfl, ?_, hhaiku, ?_⟩
  · intro model_alias hnone
    rw [pricing_for, hnone, Option.getD_none]
  · rw [calculate_cost, hhaiku]
    norm_num

/-- C7 witness: an alias outside the pricing table falls back to the
default (1.00, 5.00) pricing. -/
theorem calculate_cost_formula_witness :
    pricing_for "mystery-model" = DEFAULT_PRICING := by
  have hnone : MODEL_PRICING.lookup "mystery-model" = none := by decide
  exact calculate_cost_formula.2.1 "mystery-model" hnone

/-! ## LLM batch labeler (scoring/llm/labeler.py, prompt.py, types.py)

External collaborators (the LangChain chat model construction, the toon
serializer, the provider chat API, json.loads, the token counter) are
modelled as an environment of fallible functions; everything the repository
implements itself (prompt text, JSON-array extraction, item validation,
handle mapping, token-count fallback, cost, control flow) is translated
directly. -/

/-- scorer_llm/registry.py Provider. -/
inductive Provider where
  | anthropic
  | google
  | groq
deriving Repr, DecidableEq

/-- scorer_llm/registry.py ModelConfig; the source field `alias` is renamed
model_alias because alias is a Lean command keyword. -/
structure ModelConfig where
  model_alias : String
  full_name : String
  provider : Provider
  default_batch_size : Nat
  probability : ℚ
deriving Repr, DecidableEq

/-- scoring/llm/types.py AudienceConfig. -/
structure AudienceConfig where
  target_profile : String
  sector : String
  high_signals : List String
  low_signals : List String
  null_signals : Option (List String)
  domain_context : String
  notes : Option String
  config_name : String
deriving Repr, DecidableEq

/-- scoring/llm/types.py ProfileToLabel. -/
structure ProfileToLabel where
  twitter_id : String
  handle : String
  name : String
  bio : Option String
  category : Option String
  followers : Int
  likely_is : String
deriving Repr, DecidableEq

/-- scoring/llm/types.py LabelItem: one validated element of the model
response. -/
structure LabelItem where
  handle : String
  label : Option Bool
  reason : String
deriving Repr, DecidableEq

/-- scoring/llm/types.py LabelResult. -/
structure LabelResult where
  twitter_id : String
  label : Option Bool
  reason : String
deriving Repr, DecidableEq

/-- scoring/llm/types.py LabelMetadata; the float cost is a rational. -/
structure LabelMetadata where
  input_tokens : Nat
  output_tokens : Nat
  call_cost : ℚ
deriving Repr, DecidableEq

/-- scoring/llm/types.py LabelBatchResponse. -/
structure LabelBatchResponse where
  results : List LabelResult
  metadata : LabelMetadata
  model : String
deriving Repr, DecidableEq

/-- scoring/llm/prompt.py build_system_prompt: pure string assembly from the
audience configuration. -/
def build_system_prompt (audience : AudienceConfig) : String :=
  let high_signals := String.intercalate "\n" (audience.high_signals.map (fun s => "  - " ++ s))
  let low_signals := String.intercalate "\n" (audience.low_signals.map (fun s => "  - " ++ s))
  "You are a profile classifier for the " ++ audience.sector ++ " sector.\n\n"
    ++ "TARGET PROFILE:\n" ++ audience.target_profile ++ "\n\n"
    ++ "DOMAIN CONTEXT:\n" ++ audience.domain_context ++ "\n\n"
    ++ "HIGH signals (return true):\n" ++ high_signals ++ "\n\n"
    ++ "LOW signals (return false):\n" ++ low_signals ++ "\n\n"
    ++ "INSTRUCTIONS:\n- Analyze each profile provided by the user in TOON format\n"
    ++ "- Return a JSON array with one object per profile\n"
    ++ "- Each object must have: handle, label, reason\n"
    ++ "- label: true (matches target), false (does not match), null (uncertain)\n"
    ++ "- reason: 1-2 sentence explanation (max 20 words)\n"
    ++ "- Be conservative: when uncertain, return null\n\n"
    ++ "OUTPUT FORMAT:\n[\n  \x7b\"handle\": string, \"label\": boolean|null, \"reason\": string\x7d\n]\n\n"
    ++ "Return ONLY the JSON array, no other text."

/-- One row of labeler.py _prepare_profiles_toon before serialization. -/
structure ToonRow where
  handle : String
  name : String
  bio : String
  followers : Int
  category : String
deriving Repr, DecidableEq

/-- labeler.py _prepare_profiles_toon, up to the external toon encoding:
null bio and category become the "N/A" placeholder. -/
def toon_rows (profiles : List ProfileToLabel) : List ToonRow :=
  profiles.map (fun p =>
    { handle := p.handle, name := p.name, bio := p.bio.getD "N/A",
      followers := p.followers, category := p.category.getD "N/A" })

/-- A JSON value, as returned by json.loads. -/
inductive JsonVal where
  | jnull
  | jbool (b : Bool)
  | jnum (n : Int)
  | jstr (s : String)
  | jarr (items : List JsonVal)
  | jobj (fields : List (String × JsonVal))
deriving Repr

/-- The code-fence loop of labeler.py _extract_json: once inside a fence,
collect lines until the closing fence. -/
def fence_lines : List String → Bool → List String
  | [], _ => []
  | line :: rest, in_block =>
    if line.startsWith "```" && !in_block then fence_lines rest true
    else if line.startsWith "```" && in_block then []
    else if in_block then line :: fence_lines rest in_block
    else fence_lines rest in_block

/-- Python str.find: index of the first occurrence of a character. -/
def first_idx (l : List Char) (c : Char) : Option Nat :=
  l.findIdx? (fun ch => ch = c)

/-- Python str.rfind: index of the last occurrence of a character. -/
def last_idx (l : List Char) (c : Char) : Option Nat :=
  match l.reverse.findIdx? (fun ch => ch = c) with
  | none => none
  | some i => some (l.length - 1 - i)

/-- labeler.py _extract_json: strip, unwrap a markdown code fence, then
slice between the first open bracket and the last close bracket when that
span is non-trivial, else return the text unchanged. -/
def extract_json (text : String) : String :=
  let text := String.mk (strip_chars text.data)
  let text :=
    if text.startsWith "```" then
      String.intercalate "\n" (fence_lines (text.splitOn "\n") false)
    else text
  let chars := text.data
  match first_idx chars '[', last_idx chars ']' with
  | some s, some e => if e > s then String.mk ((chars.drop s).take (e + 1 - s)) else text
  | _, _ => text

/-- Pydantic validation of one response element against the LabelItem schema
(types.py): handle must be a string, label a boolean or null, reason a
string of at most 200 characters, and no extra keys are allowed
(StrictModel extra = forbid). -/
def validate_label_item (v : JsonVal) : Option LabelItem :=
  match v with
  | .jobj fields =>
    match List.lookup "handle" fields, List.lookup "label" fields,
        List.lookup "reason" fields with
    | some (.jstr handle), some label_val, some (.jstr reason) =>
      match (match label_val with
             | .jbool b => some (some b)
             | .jnull => some none
             | _ => none : Option (Option Bool)) with
      | some label =>
        if reason.length ≤ 200
            && fields.all (fun f => f.1 = "handle" || f.1 = "label" || f.1 = "reason") then
          some { handle := handle, label := label, reason := reason }
        else none
      | none => none
    | _, _, _ => none
  | _ => none

/-- The handle index of labeler.py _parse_labels: a dict keyed by lowercased
handle, later insertions winning. -/
def handle_to_id (profiles : List ProfileToLabel) (handle : String) : Option String :=
  List.lookup handle ((profiles.map (fun p => (p.handle.toLower, p.twitter_id))).reverse)

/-- labeler.py _parse_labels: extract the JSON array, parse it (json.loads
is external and fallible), validate items dropping invalid ones, then map
handles back to profile ids dropping unmatched ones.  The Python truthiness
test `if twitter_id` also drops an empty-string id. -/
def parse_labels (json_loads : String → Except String (List JsonVal)) (content : String)
    (profiles : List ProfileToLabel) : Except String (List LabelResult) :=
  let json_str := extract_json content
  match json_loads json_str with
  | .error e => .error e
  | .ok items_data =>
    let validated_items := items_data.filterMap validate_label_item
    .ok (validated_items.filterMap (fun item =>
      match handle_to_id profiles item.handle.toLower with
      | some twitter_id =>
        if twitter_id = "" then none
        else some { twitter_id := twitter_id, label := item.label, reason := item.reason }
      | none => none))

/-- Provider chat response: content is None when the payload is not a
string; usage metadata may be absent. -/
structure ChatResponse where
  content : Option String
  usage_input : Option Nat
  usage_output : Option Nat
deriving Repr, DecidableEq

/-- The external collaborators of label_batch, each fallible call modelled
as an Except-valued function. -/
structure LLMEnv where
  get_chat_model : String → Except String Unit
  encode_toon : List ToonRow → Except String String
  invoke : Provider → String → String → Except String ChatResponse
  json_loads : String → Except String (List JsonVal)
  count_tokens : String → Nat

/-- labeler.py _extract_token_counts: metadata counts when present and
non-zero, otherwise local estimates from the prompt and the response. -/
def extract_token_counts (count_tokens : String → Nat) (response : ChatResponse)
    (fallback_input : String) : Nat × Nat :=
  let input_tokens := response.usage_input.getD 0
  let output_tokens := response.usage_output.getD 0
  let input_tokens := if input_tokens = 0 then count_tokens fallback_input else input_tokens
  let output_tokens :=
    if output_tokens = 0 then count_tokens (response.content.getD "") else output_tokens
  (input_tokens, output_tokens)

/-- The empty_response of labeler.py label_batch: no results, zero tokens,
zero cost. -/
def empty_response (model_config : ModelConfig) : LabelBatchResponse :=
  { results := [],
    metadata := { input_tokens := 0, output_tokens := 0, call_cost := 0 },
    model := model_config.model_alias }

/-- labeler.py label_batch.  The second component counts provider
invocations.  The chat-model construction, the prompt assembly, and the
toon serialization happen before the try block, so their exceptions
propagate (an Except.error result); from the provider invocation on, every
exception is caught and converted to the empty response. -/
def label_batch (env : LLMEnv) (profiles : List ProfileToLabel)
    (model_config : ModelConfig) (audience : AudienceConfig) :
    Except String LabelBatchResponse × Nat :=
  if profiles.isEmpty then (.ok (empty_response model_config), 0)
  else
    match env.get_chat_model model_config.model_alias with
    | .error e => (.error e, 0)
    | .ok _ =>
      let system_prompt := build_system_prompt audience
      match env.encode_toon (toon_rows profiles) with
      | .error e => (.error e, 0)
      | .ok profiles_toon =>
        let attempt : Except String LabelBatchResponse :=
          match env.invoke model_config.provider system_prompt profiles_toon with
          | .error e => .error e
          | .ok response =>
            match response.content with
            | none => .ok (empty_response model_config)
            | some content =>
              let fallback_input := system_prompt ++ profiles_toon
              let token_counts := extract_token_counts env.count_tokens response fallback_input
              let call_cost :=
                calculate_cost model_config.model_alias token_counts.1 token_counts.2
              match parse_labels env.json_loads content profiles with
              | .error e => .error e
              | .ok results =>
                .ok { results := results,
                      metadata := { input_tokens := token_counts.1,
                                    output_tokens := token_counts.2, call_cost := call_cost },
                      model := model_config.model_alias }
        match attempt with
        | .ok r => (.ok r, 1)
        | .error _ => (.ok (empty_response model_config), 1)

/-- An environment whose toon serialization (part of prompt building)
raises; every other collaborator is inert. -/
def c6_bad_env : LLMEnv :=
  { get_chat_model := fun _ => .ok ()
    encode_toon := fun _ => .error "toon encoding failed"
    invoke := fun _ _ _ => .error "not reached"
    json_loads := fun _ => .error "not reached"
    count_tokens := fun _ => 0 }

/-- An environment where every collaborator succeeds. -/
def c6_ok_env : LLMEnv :=
  { get_chat_model := fun _ => .ok ()
    encode_toon := fun _ => .ok "toon"
    invoke := fun _ _ _ => .ok { content := some "[]", usage_input := some 10,
                                 usage_output := some 5 }
    json_loads := fun _ => .ok []
    count_tokens := fun s => s.length }

/-- A concrete labeling candidate. -/
def c6_profile : ProfileToLabel :=
  { twitter_id := "123", handle := "testuser", name := "Test User",
    bio := some "a bio", category := none, followers := 10, likely_is := "Human" }

/-- A concrete model configuration. -/
def c6_model : ModelConfig :=
  { model_alias := "claude-haiku-4.5", full_name := "claude-haiku-4-5-20251001",
    provider := .anthropic, default_batch_size := 25, probability := 7/10 }

/-- A concrete audience configuration. -/
def c6_audience : AudienceConfig :=
  { target_profile := "researchers", sector := "academia", high_signals := ["papers"],
    low_signals := ["spam"], null_signals := none, domain_context := "ctx",
    notes := none, config_name := "cfg" }

/-- C6 counterexample: an exception raised while serializing the profile
batch during prompt building propagates out of label_batch instead of
becoming the empty result, because that step runs before the try block. -/
theorem label_batch_prompt_error_counterexample :
    label_batch c6_bad_env [c6_profile] c6_model c6_audience
      = (.error "toon encoding failed", 0) ∧
    (Except.error "toon encoding failed" : Except String LabelBatchResponse)
      ≠ .ok (empty_response c6_model) :=
  ⟨rfl, by simp⟩

/-- C6 (amended): an empty candidate list yields the zero-token, zero-cost
empty result with no provider call; exceptions during chat-model resolution
or batch serialization (before the try block) propagate; and once the
guarded region is entered, label_batch always returns normally, with any
provider-invocation or parsing failure converted to the empty result. -/
theorem label_batch_error_boundary :
    ∀ (env : LLMEnv) (profiles : List ProfileToLabel)
      (model_config : ModelConfig) (audience : AudienceConfig),
    (profiles = [] →
      label_batch env profiles model_config audience
        = (.ok (empty_response model_config), 0)) ∧
    (∀ e, profiles ≠ [] →
      env.get_chat_model model_config.model_alias = .error e →
      label_batch env profiles model_config audience = (.error e, 0)) ∧
    (∀ e, profiles ≠ [] →
      env.get_chat_model model_config.model_alias = .ok () →
      env.encode_toon (toon_rows profiles) = .error e →
      label_batch env profiles model_config audience = (.error e, 0)) ∧
    (∀ profiles_toon e, profiles ≠ [] →
      env.get_chat_model model_config.model_alias = .ok () →
      env.encode_toon (toon_rows profiles) = .ok profiles_toon →
      env.invoke model_config.provider (build_system_prompt audience) profiles_toon
        = .error e →
      label_batch env profiles model_config audience
        = (.ok (empty_response model_config), 1)) ∧
    (∀ profiles_toon, profiles ≠ [] →
      env.get_chat_model model_config.model_alias = .ok () →
      env.encode_toon (toon_rows profiles) = .ok profiles_toon →
      ∃ r, label_batch env profiles model_config audience = (.ok r, 1)) := by
  intro env profiles model_config audience
  have hne : ∀ (p : Prop), profiles ≠ [] → (profiles.isEmpty = true → p) → True := by
    intro _ _ _
    trivial
  refine ⟨?_, ?_, ?_, ?_, ?_⟩
  · intro h
    subst h
    rfl
  · intro e hprofiles hchat
    rw [label_batch, if_neg (by simpa using hprofiles), hchat]
  · intro e hprofiles hchat hencode
    rw [label_batch, if_neg (by simpa using hprofiles), hchat, hencode]
  · intro profiles_toon e hprofiles hchat hencode hinvoke
    rw [label_batch, if_neg (by simpa using hprofiles), hchat, hencode]
    dsimp only
    rw [hinvoke]
  · intro profiles_toon hprofiles hchat hencode
    rw [label_batch, if_neg (by simpa using hprofiles), hchat, hencode]
    dsimp only
    rcases hinv : env.invoke model_config.provider (build_system_prompt audience)
        profiles_toon with e | response
    · exact ⟨empty_response model_config, rfl⟩
    · dsimp only
      rcases hc : response.content with _ | content
      · exact ⟨empty_response model_config, rfl⟩
      · dsimp only
        rcases hp : parse_labels env.json_loads content profiles with e | results
        · exact ⟨empty_response model_config, rfl⟩
        · exact ⟨_, rfl⟩

/-- C6 witness: with an all-succeeding environment and a one-profile batch
the guarded region returns normally with one provider call. -/
theorem label_batch_error_boundary_witness :
    ∃ r, label_batch c6_ok_env [c6_profile] c6_model c6_audience = (.ok r, 1) :=
  (label_batch_error_boundary c6_ok_env [c6_profile] c6_model c6_audience).2.2.2.2
    "toon" (by simp) rfl rfl

end TwitterScorer
